import Mathlib

/-!
Verification of the synthetic exam-anomaly dataset generator
`generate_realistic_cheating_data` (src/project_yeta_ah.py, lines 24-184)
against its natural-language specification.

Shallow-embedding conventions:
* numpy/pandas floats are modeled as exact rationals (`ℚ`);
* the seeded global numpy random stream (`np.random.seed(42)` on line 40)
  is modeled as an abstract draw stream `g : ℕ → ℚ` with an explicit
  cursor `k`; each primitive distribution call consumes a fixed number of
  draws in the exact program order.  A standard-normal variate is one raw
  draw `z` (so `normal(mu, sigma)` yields `mu + sigma * z`), a
  uniform/`random()` variate is one raw draw `u` (so `uniform(a, b)`
  yields `a + (b - a) * u`), and a 3-way `choice` with weights
  `[0.5, 0.3, 0.2]` consumes one draw compared against the cumulative
  thresholds `0.5` and `0.8`;
* library numeric routines whose internals are outside this repository
  enter as explicit parameters (`NpLib`): the square root used inside
  `np.std`/`pandas.Series.std`, and the seeded `IsolationForest`
  (`contamination=0.2, random_state=42`), modeled as a deterministic
  function from the feature rows to the list of `-1`/`1` predictions;
* the generator's failure points are modeled by the `Except` guards in
  `generateData`: numpy raises `ValueError` on a negative allocation
  size (`np.random.normal(.., size)` with `size < 0`, reached when
  `n_samples - n_cheaters < 0` or `n_cheaters < 0`), `np.percentile`
  (line 140) raises on an empty input (`n_samples = 0`), and the seeded
  `IsolationForest.fit_predict` call (line 175) raises `ValueError` when
  the z-score columns contain NaN: `pandas.Series.std` (ddof = 1) is NaN
  for a single row and 0 for a constant raw column, and either way
  lines 153-155 produce NaN — in the exact rational model both collapse
  to `sampleVar = 0`, the `zNaN` check.
-/

/-- The numpy random stream: the raw draw source `g` (fully determined by
the seed) and the cursor `k` counting consumed draws. -/
structure RNG where
  g : ℕ → ℚ
  k : ℕ

/-- Consume one raw draw. -/
def draw (r : RNG) : ℚ × RNG := (r.g r.k, ⟨r.g, r.k + 1⟩)

/-- Consume `m` raw draws. -/
def drawN (m : ℕ) (r : RNG) : List ℚ × RNG :=
  ((List.range m).map (fun i => r.g (r.k + i)), ⟨r.g, r.k + m⟩)

/-- `np.random.normal(mu, sigma, m)`: `m` standard-normal draws, scaled. -/
def normalN (mu sigma : ℚ) (m : ℕ) (r : RNG) : List ℚ × RNG :=
  let p := drawN m r
  (p.1.map (fun z => mu + sigma * z), p.2)

/-- `np.random.normal(mu, sigma)` (single variate). -/
def normal1 (mu sigma : ℚ) (r : RNG) : ℚ × RNG :=
  let p := draw r
  (mu + sigma * p.1, p.2)

/-- `np.random.uniform(a, b)` (single variate). -/
def uniformD (a b : ℚ) (r : RNG) : ℚ × RNG :=
  let p := draw r
  (a + (b - a) * p.1, p.2)

/-- Python `int(q)` for a float/rational: truncation toward zero
(line 43: `n_cheaters = int(n_samples * cheater_ratio)`), computed as the
truncating division of the reduced numerator by the denominator. -/
def pyInt (q : ℚ) : ℤ := q.num.tdiv q.den

/-- Floor of a rational (flooring division of the reduced fraction);
used by `np.percentile`'s interpolation and the sampling model. -/
def ratFloor (q : ℚ) : ℤ := q.num.fdiv q.den

/-- Python 3 `round(q)` at zero digits: round half to even.  Used only to
state the specification's `round(n_samples * cheater_ratio)` invariant;
the source never calls `round`. -/
def pyRound (q : ℚ) : ℤ :=
  if q - ratFloor q < 1/2 then ratFloor q
  else if 1/2 < q - ratFloor q then ratFloor q + 1
  else if ratFloor q % 2 = 0 then ratFloor q else ratFloor q + 1

/-- Mean of a column (`Series.mean` / `ndarray.mean`). -/
def mean (xs : List ℚ) : ℚ := xs.sum / xs.length

/-- Population variance: square of `np.std` (ddof = 0). -/
def popVar (xs : List ℚ) : ℚ :=
  ((xs.map (fun x => (x - mean xs) ^ 2)).sum) / (xs.length : ℚ)

/-- Sample variance: square of `pandas.Series.std` (default ddof = 1). -/
def sampleVar (xs : List ℚ) : ℚ :=
  ((xs.map (fun x => (x - mean xs) ^ 2)).sum) / ((xs.length : ℚ) - 1)

/-- Library routines used by the generator whose implementations live
outside this repository: the float square root (inside `np.std` and
`pandas.Series.std`), and the seeded `IsolationForest`'s `fit_predict`
(deterministic for `random_state=42`), mapping the feature rows to one
`-1`/`1` prediction per row. -/
structure NpLib where
  sqrt : ℚ → ℚ
  isolationForest : List (List ℚ) → List ℚ

/-- The three cheating-pattern variants of line 73. -/
inductive CheaterType where
  | coursework_advantage
  | exam_advantage
  | consistent
deriving DecidableEq, Repr

/-- One categorical draw of `np.random.choice(['coursework_advantage',
'exam_advantage', 'consistent'], p=[0.5, 0.3, 0.2])`: cumulative
thresholds 0.5 and 0.8. -/
def chooseType (u : ℚ) : CheaterType :=
  if u < 1/2 then .coursework_advantage
  else if u < 4/5 then .exam_advantage
  else .consistent

/-- `cheater_types = np.random.choice(..., size=m, p=[0.5,0.3,0.2])`
(line 73). -/
def cheaterTypesList (m : ℕ) (r : RNG) : List CheaterType × RNG :=
  let p := drawN m r
  (p.1.map chooseType, p.2)

/-- Body of the pattern loop (lines 77-92) for one cheater row with
ability `a`: returns the overwritten `(coursework_raw, exam_raw)` pair.
Every branch overwrites both raw scores of the row. -/
def patternRow (a : ℚ) (t : CheaterType) (r : RNG) : (ℚ × ℚ) × RNG :=
  match t with
  | .coursework_advantage =>
      let pu := uniformD 1 (5/2) r
      let pz := normal1 0 (4/5) pu.2
      ((a + pu.1, a + pz.1), pz.2)
  | .exam_advantage =>
      let pz := normal1 0 (4/5) r
      let pu := uniformD (3/2) 3 pz.2
      ((a + pz.1, a + pu.1), pu.2)
  | .consistent =>
      let pb := uniformD 1 2 r
      let pz1 := normal1 0 (1/5) pb.2
      let pz2 := normal1 0 (1/5) pz1.2
      ((a + pb.1 + pz1.1, a + pb.1 + pz2.1), pz2.2)

/-- Sequential per-row mapping threading the random stream (the Python
`for` loops over rows). -/
def mapRng (f : α → RNG → β × RNG) : List α → RNG → List β × RNG
  | [], r => ([], r)
  | a :: as, r =>
      let p := f a r
      let q := mapRng f as p.2
      (p.1 :: q.1, q.2)

/-- Body of the subject-scores loop (lines 103-113) for one row:
5 per-subject scores `ability + noise`, noise sd 0.4 with probability 0.7
for a cheater row, else sd 1; the feature is `np.std` of the 5 scores. -/
def subjectRow (L : NpLib) (a c : ℚ) (r : RNG) : ℚ × RNG :=
  if c = 0 then
    let p := drawN 5 r
    (L.sqrt (popVar (p.1.map (fun z => a + z))), p.2)
  else
    let pu := draw r
    if pu.1 < 7/10 then
      let p := drawN 5 pu.2
      (L.sqrt (popVar (p.1.map (fun z => a + (2/5) * z))), p.2)
    else
      let p := drawN 5 pu.2
      (L.sqrt (popVar (p.1.map (fun z => a + z))), p.2)

/-- `np.random.choice(indices, size=m, replace=False)` (line 123):
modeled as `m` successive stream-driven removals from the index list. -/
def selectK : ℕ → List ℕ → RNG → List ℕ × RNG
  | 0, _, r => ([], r)
  | m + 1, xs, r =>
      if xs.isEmpty then ([], r)
      else
        let pu := draw r
        let j := min (ratFloor (pu.1 * (xs.length : ℚ))).toNat (xs.length - 1)
        let rest := selectK m (xs.eraseIdx j) pu.2
        (xs.getD j 0 :: rest.1, rest.2)

/-- Body of the sudden-improvement loop (lines 124-125): subtract a
uniform `[0.5, 1.5]` penalty from the selected row of `past_performance`. -/
def suddenStep (i : ℕ) (s : List ℚ × RNG) : List ℚ × RNG :=
  let pu := uniformD (1/2) (3/2) s.2
  (s.1.set i (s.1.getD i 0 - pu.1), pu.2)

/-- Body of the exam-time loop (lines 131-137) for one cheater row `i`:
`if np.random.random() < 0.4:` replace with `-np.random.uniform(1.5, 3)`;
`elif np.random.random() < 0.7:` replace with `np.random.uniform(1.5, 3)`;
else leave the row unchanged. -/
def examTimeStep (i : ℕ) (s : List ℚ × RNG) : List ℚ × RNG :=
  let pu1 := draw s.2
  if pu1.1 < 2/5 then
    let pv := uniformD (3/2) 3 pu1.2
    (s.1.set i (-pv.1), pv.2)
  else
    let pu2 := draw pu1.2
    if pu2.1 < 7/10 then
      let pv := uniformD (3/2) 3 pu2.2
      (s.1.set i pv.1, pv.2)
    else (s.1, pu2.2)

/-- `np.percentile(xs, q)` with the default linear interpolation. -/
def percentile (xs : List ℚ) (q : ℚ) : ℚ :=
  let s := List.insertionSort (· ≤ ·) xs
  let h := (((xs.length : ℚ) - 1) * q) / 100
  let lo := (ratFloor h).toNat
  let hi := min (lo + 1) (xs.length - 1)
  s.getD lo 0 + (h - (ratFloor h : ℚ)) * (s.getD hi 0 - s.getD lo 0)

/-- `np.digitize(x, bins=[b1, b2])` (right-open bins): the ability-tertile
group index 0, 1 or 2 of line 141. -/
def digitize2 (b1 b2 x : ℚ) : ℕ :=
  (if b1 ≤ x then 1 else 0) + (if b2 ≤ x then 1 else 0)

/-- The `exam_raw` values of the rows whose tertile group is `t`
(the selection `data.loc[ability_groups == t, 'exam_raw']` of line 144). -/
def groupMembers (grps : List ℕ) (exam : List ℚ) (t : ℕ) : List ℚ :=
  ((grps.zip exam).filter (fun p => p.1 == t)).map Prod.snd

/-- `avg_group_exam[t]` (line 144): mean `exam_raw` of tertile group `t`.
The divisor is the group size; pandas returns NaN on an empty group
(modeled by rational division by zero). -/
def groupMean (grps : List ℕ) (exam : List ℚ) (t : ℕ) : ℚ :=
  mean (groupMembers grps exam t)

/-- The peer-comparison column (lines 140-150): each row's `exam_raw`
minus the mean `exam_raw` of the row's ability-tertile group. -/
def peerCol (ability exam : List ℚ) : List ℚ :=
  let b1 := percentile ability 33
  let b2 := percentile ability 66
  let grps := ability.map (fun a => digitize2 b1 b2 a)
  (grps.zip exam).map (fun p =>
    p.2 - groupMean grps exam p.1)

/-- The z-score columns of lines 153-154: `(col - col.mean()) / col.std()`
where `pandas.Series.std` is the square root of the sample variance
(default ddof = 1). -/
def zcol (L : NpLib) (xs : List ℚ) : List ℚ :=
  xs.map (fun x => (x - mean xs) / L.sqrt (sampleVar xs))

/-- Body of the score-variance loop (lines 158-168) for one row:
8 repeated-assessment scores; a cheater row gets mean 1.2, sd 0.3 noise
with probability 0.7, else (and for every non-cheater) sd 1 noise; the
feature is `np.std` of the 8 scores. -/
def scoreVarRow (L : NpLib) (a c : ℚ) (r : RNG) : ℚ × RNG :=
  if c = 1 then
    let pu := draw r
    if pu.1 < 7/10 then
      let p := drawN 8 pu.2
      (L.sqrt (popVar (p.1.map (fun z => a + (6/5 + (3/10) * z)))), p.2)
    else
      let p := drawN 8 pu.2
      (L.sqrt (popVar (p.1.map (fun z => a + z))), p.2)
  else
    let p := drawN 8 r
    (L.sqrt (popVar (p.1.map (fun z => a + z))), p.2)

/-- The 13 columns of the intermediate `data` frame, in pandas column
order (`ability`, `cheater`, `coursework_raw`, `exam_raw` from the
concat of line 95, then the engineered columns in assignment order). -/
structure Cols where
  ability : List ℚ
  cheater : List ℚ
  coursework_raw : List ℚ
  exam_raw : List ℚ
  subject_variation : List ℚ
  historical_trend : List ℚ
  exam_time_std : List ℚ
  peer_comparison : List ℚ
  coursework_z : List ℚ
  exam_z : List ℚ
  z_diff : List ℚ
  score_variance : List ℚ
  anomaly_score : List ℚ

/-- The number of cheater rows (line 43):
`n_cheaters = int(n_samples * cheater_ratio)`. -/
def nCheat (n_samples : ℤ) (cheater_ratio : ℚ) : ℤ :=
  pyInt ((n_samples : ℚ) * cheater_ratio)

/-- The full column computation of `generate_realistic_cheating_data`
(lines 47-179) for already-validated sizes `n_non` (non-cheaters, first)
and `n_ch` (cheaters, appended after), consuming the seeded stream in
exact program order. -/
def generateCols (L : NpLib) (n_non n_ch : ℕ) (r0 : RNG) : Cols :=
  let n := n_non + n_ch
  -- non-cheaters: ability, coursework noise, exam noise (lines 47-55)
  let pA := normalN 0 1 n_non r0
  let abilityN := pA.1
  let pCw := normalN 0 (4/5) n_non pA.2
  let courseworkN := List.zipWith (· + ·) abilityN pCw.1
  let pEx := normalN 0 (4/5) n_non pCw.2
  let examN := List.zipWith (· + ·) abilityN pEx.1
  -- cheaters: ability and an initial coursework draw (lines 58-65); the
  -- initial coursework values are consumed from the stream but every
  -- cheater row's raw scores are overwritten by the pattern loop below
  let pAc := normalN (-(1/2)) 1 n_ch pEx.2
  let abilityC := pAc.1
  let pCwc := normalN 0 (4/5) n_ch pAc.2
  -- cheating-pattern variants and the pattern loop (lines 73-92)
  let pTypes := cheaterTypesList n_ch pCwc.2
  let pPat := mapRng (fun p r => patternRow p.1 p.2 r) (abilityC.zip pTypes.1) pTypes.2
  let courseworkC := pPat.1.map Prod.fst
  let examC := pPat.1.map Prod.snd
  -- pd.concat([non_cheaters, cheaters]).reset_index(drop=True)  (line 95)
  let ability := abilityN ++ abilityC
  let cheater : List ℚ := List.replicate n_non 0 ++ List.replicate n_ch 1
  let coursework_raw := courseworkN ++ courseworkC
  let exam_raw := examN ++ examC
  -- subject variation (lines 100-115)
  let pSub := mapRng (fun p r => subjectRow L p.1 p.2 r) (ability.zip cheater) pPat.2
  let subject_variation := pSub.1
  -- historical trend (lines 117-127):
  -- past_performance = data['ability'] + np.random.normal(0, 0.5, n)
  let pPast := normalN 0 (1/2) n pSub.2
  let past0 := List.zipWith (· + ·) ability pPast.1
  let cheater_indices := List.range' n_non n_ch
  let pSudden := selectK (pyInt ((n_ch : ℚ) * (3/5))).toNat cheater_indices pPast.2
  let pAdj := pSudden.1.foldl (fun s i => suddenStep i s) (past0, pSudden.2)
  let current := List.zipWith (fun c e => (c + e) / 2) coursework_raw exam_raw
  let historical_trend := List.zipWith (· - ·) current pAdj.1
  -- exam time (lines 129-137)
  let pTime := normalN 0 1 n pAdj.2
  let pSkew := cheater_indices.foldl (fun s i => examTimeStep i s) (pTime.1, pTime.2)
  let exam_time_std := pSkew.1
  -- peer comparison (lines 140-150, no draws)
  let peer_comparison := peerCol ability exam_raw
  -- z-scores (lines 153-155)
  let coursework_z := zcol L coursework_raw
  let exam_z := zcol L exam_raw
  let z_diff := List.zipWith (· - ·) coursework_z exam_z
  -- score variance (lines 158-168)
  let pSv := mapRng (fun p r => scoreVarRow L p.1 p.2 r) (ability.zip cheater) pSkew.2
  let score_variance := pSv.1
  -- anomaly score (lines 170-179): the seeded IsolationForest over the
  -- 6 legitimate features, then `(pred == -1).astype(float)`
  let featRows := (List.range n).map (fun i =>
    [coursework_z.getD i 0, exam_z.getD i 0, z_diff.getD i 0,
     score_variance.getD i 0, subject_variation.getD i 0,
     historical_trend.getD i 0])
  let anomaly_score := (L.isolationForest featRows).map
    (fun v => if v = -1 then (1 : ℚ) else 0)
  ⟨ability, cheater, coursework_raw, exam_raw, subject_variation,
   historical_trend, exam_time_std, peer_comparison, coursework_z,
   exam_z, z_diff, score_variance, anomaly_score⟩

/-- The intermediate `data` frame as a (column-name, column) table in
pandas column order. -/
def tableOf (c : Cols) : List (String × List ℚ) :=
  [("ability", c.ability), ("cheater", c.cheater),
   ("coursework_raw", c.coursework_raw), ("exam_raw", c.exam_raw),
   ("subject_variation", c.subject_variation),
   ("historical_trend", c.historical_trend),
   ("exam_time_std", c.exam_time_std),
   ("peer_comparison", c.peer_comparison),
   ("coursework_z", c.coursework_z), ("exam_z", c.exam_z),
   ("z_diff", c.z_diff), ("score_variance", c.score_variance),
   ("anomaly_score", c.anomaly_score)]

/-- `data.drop(['ability', 'coursework_raw', 'exam_raw'], axis=1)`
(line 182). -/
def dropGenOnly (t : List (String × List ℚ)) : List (String × List ℚ) :=
  t.filter (fun c =>
    !(c.1 == "ability" || c.1 == "coursework_raw" || c.1 == "exam_raw"))

/-- The z-score degeneracy check of the real pipeline:
`pandas.Series.std` (ddof = 1) is NaN for a single observation and 0 for
a constant column — in the exact rational model both collapse to
`sampleVar = 0` — and in either case the z-score columns of
lines 153-155 are NaN, which makes the seeded
`IsolationForest.fit_predict` call of line 175 raise `ValueError`. -/
def zNaN (c : Cols) : Bool :=
  sampleVar c.coursework_raw == 0 || sampleVar c.exam_raw == 0

/-- The generator up to (and including) the intermediate `data` frame.
The four guards are the failure points of the source: numpy raises
`ValueError: negative dimensions are not allowed` at the first
`np.random.normal(.., size)` call whose size is negative
(`n_non_cheaters < 0` at line 49, `n_cheaters < 0` at line 60),
`np.percentile` raises on the empty `ability` column (`n_samples = 0`,
line 140), and `IsolationForest.fit_predict` (line 175) raises
`ValueError` when the z columns contain NaN, i.e. when a raw-score
column has a single row or zero variance (`zNaN`).  The source itself
performs no input validation.  In the program every random draw is
consumed before the NaN failure surfaces (the z columns are computed
after all stochastic steps), so guarding on the fully computed columns
mirrors it. -/
def generateData (L : NpLib) (n_samples : ℤ) (cheater_ratio : ℚ)
    (r : RNG) : Except String (List (String × List ℚ)) :=
  if n_samples - nCheat n_samples cheater_ratio < 0 then
    .error "ValueError: negative dimensions are not allowed"
  else if nCheat n_samples cheater_ratio < 0 then
    .error "ValueError: negative dimensions are not allowed"
  else if n_samples ≤ 0 then
    .error "IndexError: cannot do a non-empty take from an empty axes"
  else if zNaN (generateCols L
      (n_samples - nCheat n_samples cheater_ratio).toNat
      (nCheat n_samples cheater_ratio).toNat r) then
    .error "ValueError: Input contains NaN"
  else
    .ok (tableOf (generateCols L
      (n_samples - nCheat n_samples cheater_ratio).toNat
      (nCheat n_samples cheater_ratio).toNat r))

/-- `generate_realistic_cheating_data`: the intermediate frame with the
generation-only columns dropped (lines 182-184). -/
def generate (L : NpLib) (n_samples : ℤ) (cheater_ratio : ℚ)
    (r : RNG) : Except String (List (String × List ℚ)) :=
  (generateData L n_samples cheater_ratio r).map dropGenOnly

/-- Column extraction helper: the named column of a successfully
generated table (empty list on error or missing column). -/
def getCol (e : Except String (List (String × List ℚ)))
    (name : String) : List ℚ :=
  ((e.toOption.getD []).lookup name).getD []

/-- A concrete raw stream for concrete evaluations: every draw is 1/2. -/
def gHalf : ℕ → ℚ := fun _ => 1/2

/-- A concrete raw stream with pairwise-distinct draws, so the raw score
columns of a run are non-constant (nonzero sample variance). -/
def gIdx : ℕ → ℚ := fun i => (i : ℚ)

/-- A concrete raw stream for the `n_samples = 2`, `cheater_ratio = 1`
run: draws 6 and 7 are 0 (making row 0's pattern offsets differ from
row 1's), every other draw is 1/2, so both raw columns come out
non-constant. -/
def gV : ℕ → ℚ := fun i => if i = 6 ∨ i = 7 then 0 else 1/2

/-- A concrete library instantiation for concrete evaluations: identity
square root and a length-preserving outlier detector flagging nothing. -/
def npLib0 : NpLib :=
  ⟨fun v => v, fun rows => rows.map (fun _ => 1)⟩

/-- A concrete raw stream arranged so that, for `n_samples = 3` and
`cheater_ratio = 0`, both raw score columns come out as `[0, 2, 4]`
(draws 0-2 are the non-cheater abilities, draws 3-5 the coursework
noise, draws 6-8 the exam noise, scaled by sigma = 0.8). -/
def gZ : ℕ → ℚ := fun i =>
  if i = 4 ∨ i = 7 then 5/2 else if i = 5 ∨ i = 8 then 5 else 0

/-- Library fixture whose square root is exact at 4 (the sample variance
of `[0, 2, 4]`). -/
def npLibS : NpLib :=
  ⟨fun v => if v = 4 then 2 else 0, fun rows => rows.map (fun _ => 1)⟩

/-- Library fixture whose square root is exact at 4 and returns the
64-bit float approximation of `sqrt(8/3)` at `8/3` (the population
variance of `[0, 2, 4]`), mimicking numpy's float square root. -/
def npLibP : NpLib :=
  ⟨fun v => if v = 4 then 2
    else if v = 8/3 then 7354133729172959/4503599627370496 else 0,
   fun rows => rows.map (fun _ => 1)⟩

/-- Population z-scores as claim C5 words them: each value is the raw
value minus the column mean, divided by the square root of the
*population* variance (ddof = 0).  Defined from the claim for comparison
with the source's `zcol`, which divides by the *sample* standard
deviation (`pandas.Series.std`, ddof = 1). -/
def popZcol (L : NpLib) (xs : List ℚ) : List ℚ :=
  xs.map (fun x => (x - mean xs) / L.sqrt (popVar xs))

/-- The exam-time replacement step as claim C6 words it: with
probability 0.4 replace with a negative uniform in [-3, -1.5], "else
replaced with a uniform value in [1.5, 3] with probability 0.3 of the
remaining cases" — i.e. a second threshold of 0.3.  Defined from the
claim for comparison with the source's `examTimeStep`, whose `elif`
threshold (line 135) is 0.7. -/
def examTimeStepClaimed (i : ℕ) (s : List ℚ × RNG) : List ℚ × RNG :=
  let pu1 := draw s.2
  if pu1.1 < 2/5 then
    let pv := uniformD (3/2) 3 pu1.2
    (s.1.set i (-pv.1), pv.2)
  else
    let pu2 := draw pu1.2
    if pu2.1 < 3/10 then
      let pv := uniformD (3/2) 3 pu2.2
      (s.1.set i pv.1, pv.2)
    else (s.1, pu2.2)

-- ### Basic facts about the stream primitives

theorem drawN_fst_length (m : ℕ) (r : RNG) : (drawN m r).1.length = m := by
  simp [drawN]

theorem normalN_fst_length (mu sigma : ℚ) (m : ℕ) (r : RNG) :
    (normalN mu sigma m r).1.length = m := by
  simp [normalN, drawN_fst_length]

theorem cheaterTypesList_fst_length (m : ℕ) (r : RNG) :
    (cheaterTypesList m r).1.length = m := by
  simp [cheaterTypesList, drawN_fst_length]

theorem mapRng_fst_length (f : α → RNG → β × RNG) (xs : List α) (r : RNG) :
    (mapRng f xs r).1.length = xs.length := by
  induction xs generalizing r with
  | nil => simp [mapRng]
  | cons a as ih => simp [mapRng, ih]

theorem suddenStep_fst_length (i : ℕ) (s : List ℚ × RNG) :
    (suddenStep i s).1.length = s.1.length := by
  simp [suddenStep]

theorem examTimeStep_fst_length (i : ℕ) (s : List ℚ × RNG) :
    (examTimeStep i s).1.length = s.1.length := by
  unfold examTimeStep
  by_cases h1 : (draw s.2).1 < 2/5
  · simp [h1]
  · by_cases h2 : (draw (draw s.2).2).1 < 7/10 <;> simp [h1, h2]

theorem foldl_suddenStep_length (xs : List ℕ) :
    ∀ (s : List ℚ × RNG),
      ((xs.foldl (fun s i => suddenStep i s) s).1).length = s.1.length := by
  induction xs with
  | nil => intro s; rfl
  | cons a as ih =>
      intro s
      calc ((as.foldl (fun s i => suddenStep i s) (suddenStep a s)).1).length
          = (suddenStep a s).1.length := ih _
        _ = s.1.length := suddenStep_fst_length a s

theorem foldl_examTimeStep_length (xs : List ℕ) :
    ∀ (s : List ℚ × RNG),
      ((xs.foldl (fun s i => examTimeStep i s) s).1).length = s.1.length := by
  induction xs with
  | nil => intro s; rfl
  | cons a as ih =>
      intro s
      calc ((as.foldl (fun s i => examTimeStep i s) (examTimeStep a s)).1).length
          = (examTimeStep a s).1.length := ih _
        _ = s.1.length := examTimeStep_fst_length a s

theorem peerCol_length (ability exam : List ℚ) :
    (peerCol ability exam).length = min ability.length exam.length := by
  simp [peerCol]

theorem zcol_length (L : NpLib) (xs : List ℚ) :
    (zcol L xs).length = xs.length := by
  simp [zcol]

-- ### Projection lemmas for the assembled frame

theorem dropGenOnly_tableOf (c : Cols) :
    dropGenOnly (tableOf c) =
      [("cheater", c.cheater),
       ("subject_variation", c.subject_variation),
       ("historical_trend", c.historical_trend),
       ("exam_time_std", c.exam_time_std),
       ("peer_comparison", c.peer_comparison),
       ("coursework_z", c.coursework_z), ("exam_z", c.exam_z),
       ("z_diff", c.z_diff), ("score_variance", c.score_variance),
       ("anomaly_score", c.anomaly_score)] := rfl

theorem generateCols_cheater (L : NpLib) (n_non n_ch : ℕ) (r : RNG) :
    (generateCols L n_non n_ch r).cheater =
      List.replicate n_non (0 : ℚ) ++ List.replicate n_ch 1 := rfl

theorem generateCols_coursework_z (L : NpLib) (n_non n_ch : ℕ) (r : RNG) :
    (generateCols L n_non n_ch r).coursework_z =
      zcol L (generateCols L n_non n_ch r).coursework_raw := rfl

theorem generateCols_exam_z (L : NpLib) (n_non n_ch : ℕ) (r : RNG) :
    (generateCols L n_non n_ch r).exam_z =
      zcol L (generateCols L n_non n_ch r).exam_raw := rfl

theorem generateCols_z_diff (L : NpLib) (n_non n_ch : ℕ) (r : RNG) :
    (generateCols L n_non n_ch r).z_diff =
      List.zipWith (· - ·) (generateCols L n_non n_ch r).coursework_z
        (generateCols L n_non n_ch r).exam_z := rfl

theorem generateCols_peer (L : NpLib) (n_non n_ch : ℕ) (r : RNG) :
    (generateCols L n_non n_ch r).peer_comparison =
      peerCol (generateCols L n_non n_ch r).ability
        (generateCols L n_non n_ch r).exam_raw := rfl

theorem generateData_eq_ok (L : NpLib) (n : ℤ) (ratio : ℚ) (r : RNG)
    (h1 : 0 ≤ nCheat n ratio) (h2 : nCheat n ratio ≤ n) (h3 : 1 ≤ n)
    (hz : zNaN (generateCols L (n - nCheat n ratio).toNat
      (nCheat n ratio).toNat r) = false) :
    generateData L n ratio r =
      .ok (tableOf (generateCols L (n - nCheat n ratio).toNat
        (nCheat n ratio).toNat r)) := by
  unfold generateData
  rw [if_neg (by omega), if_neg (by omega), if_neg (by omega),
    if_neg (by simp [hz])]

theorem generateCols_ability_length (L : NpLib) (nn nc : ℕ) (r : RNG) :
    (generateCols L nn nc r).ability.length = nn + nc := by
  simp [generateCols, normalN_fst_length]

theorem generateCols_cheater_length (L : NpLib) (nn nc : ℕ) (r : RNG) :
    (generateCols L nn nc r).cheater.length = nn + nc := by
  simp [generateCols]

theorem generateCols_coursework_raw_length (L : NpLib) (nn nc : ℕ) (r : RNG) :
    (generateCols L nn nc r).coursework_raw.length = nn + nc := by
  simp [generateCols, normalN_fst_length, mapRng_fst_length,
    cheaterTypesList_fst_length]

theorem generateCols_exam_raw_length (L : NpLib) (nn nc : ℕ) (r : RNG) :
    (generateCols L nn nc r).exam_raw.length = nn + nc := by
  simp [generateCols, normalN_fst_length, mapRng_fst_length,
    cheaterTypesList_fst_length]

theorem generateCols_subject_variation_length (L : NpLib) (nn nc : ℕ) (r : RNG) :
    (generateCols L nn nc r).subject_variation.length = nn + nc := by
  simp [generateCols, normalN_fst_length, mapRng_fst_length,
    cheaterTypesList_fst_length]

theorem generateCols_historical_trend_length (L : NpLib) (nn nc : ℕ) (r : RNG) :
    (generateCols L nn nc r).historical_trend.length = nn + nc := by
  simp [generateCols, normalN_fst_length, mapRng_fst_length,
    cheaterTypesList_fst_length, foldl_suddenStep_length]

theorem generateCols_exam_time_std_length (L : NpLib) (nn nc : ℕ) (r : RNG) :
    (generateCols L nn nc r).exam_time_std.length = nn + nc := by
  simp [generateCols, normalN_fst_length, foldl_examTimeStep_length]

theorem generateCols_peer_comparison_length (L : NpLib) (nn nc : ℕ) (r : RNG) :
    (generateCols L nn nc r).peer_comparison.length = nn + nc := by
  rw [generateCols_peer, peerCol_length, generateCols_ability_length,
    generateCols_exam_raw_length, min_self]

theorem generateCols_coursework_z_length (L : NpLib) (nn nc : ℕ) (r : RNG) :
    (generateCols L nn nc r).coursework_z.length = nn + nc := by
  rw [generateCols_coursework_z, zcol_length, generateCols_coursework_raw_length]

theorem generateCols_exam_z_length (L : NpLib) (nn nc : ℕ) (r : RNG) :
    (generateCols L nn nc r).exam_z.length = nn + nc := by
  rw [generateCols_exam_z, zcol_length, generateCols_exam_raw_length]

theorem generateCols_z_diff_length (L : NpLib) (nn nc : ℕ) (r : RNG) :
    (generateCols L nn nc r).z_diff.length = nn + nc := by
  rw [generateCols_z_diff, List.length_zipWith, generateCols_coursework_z_length,
    generateCols_exam_z_length, min_self]

theorem generateCols_score_variance_length (L : NpLib) (nn nc : ℕ) (r : RNG) :
    (generateCols L nn nc r).score_variance.length = nn + nc := by
  simp [generateCols, normalN_fst_length, mapRng_fst_length,
    cheaterTypesList_fst_length]

theorem generateCols_anomaly_score_length (L : NpLib) (nn nc : ℕ) (r : RNG)
    (hIso : ∀ rows, (L.isolationForest rows).length = rows.length) :
    (generateCols L nn nc r).anomaly_score.length = nn + nc := by
  simp [generateCols, hIso]

-- ### Arithmetic helper lemmas

theorem sum_map_div_list (l : List ℚ) (c : ℚ) :
    (l.map (fun x => x / c)).sum = l.sum / c := by
  induction l with
  | nil => simp
  | cons a as ih => simp [ih, add_div]

theorem sum_map_sub_const (xs : List ℚ) (c : ℚ) :
    (xs.map (fun x => x - c)).sum = xs.sum - xs.length * c := by
  induction xs with
  | nil => simp
  | cons a as ih =>
      simp only [List.map_cons, List.sum_cons, ih, List.length_cons]
      push_cast
      ring

theorem sum_map_center (xs : List ℚ) :
    (xs.map (fun x => x - mean xs)).sum = 0 := by
  cases xs with
  | nil => simp
  | cons a as =>
      rw [sum_map_sub_const, mean]
      have h : (((a :: as).length : ℚ)) ≠ 0 := by
        simp only [List.length_cons, Nat.cast_add, Nat.cast_one]
        positivity
      field_simp

theorem zcol_sum (L : NpLib) (xs : List ℚ) : (zcol L xs).sum = 0 := by
  unfold zcol
  rw [show (fun x => (x - mean xs) / L.sqrt (sampleVar xs))
        = (fun y => y / L.sqrt (sampleVar xs)) ∘ (fun x => x - mean xs) from rfl,
    ← List.map_map, sum_map_div_list, sum_map_center, zero_div]

theorem sampleVar_ne_zero_two_le (xs : List ℚ) (h : sampleVar xs ≠ 0) :
    2 ≤ xs.length := by
  match xs with
  | [] => exact absurd (by simp [sampleVar]) h
  | [a] => exact absurd (by simp [sampleVar, mean]) h
  | a :: b :: l => simp

theorem zcol_sum_sq (L : NpLib) (xs : List ℚ)
    (hsq : L.sqrt (sampleVar xs) ^ 2 = sampleVar xs)
    (hV : sampleVar xs ≠ 0) :
    ((zcol L xs).map (fun z => z ^ 2)).sum = (xs.length : ℚ) - 1 := by
  have hlen := sampleVar_ne_zero_two_le xs hV
  have hlen' : ((xs.length : ℚ) - 1) ≠ 0 := by
    have h2 : (2 : ℚ) ≤ (xs.length : ℚ) := by exact_mod_cast hlen
    linarith
  unfold zcol
  rw [List.map_map]
  have hfun : ((fun z => z ^ 2) ∘ fun x => (x - mean xs) / L.sqrt (sampleVar xs))
      = (fun y => y / L.sqrt (sampleVar xs) ^ 2) ∘ (fun x => (x - mean xs) ^ 2) := by
    funext x
    simp [Function.comp, div_pow]
  rw [hfun, ← List.map_map, sum_map_div_list, hsq]
  have hS : (xs.map (fun x => (x - mean xs) ^ 2)).sum
      = sampleVar xs * ((xs.length : ℚ) - 1) := by
    have hdef : sampleVar xs
        = (xs.map (fun x => (x - mean xs) ^ 2)).sum / ((xs.length : ℚ) - 1) := rfl
    rw [hdef, div_mul_cancel₀ _ hlen']
  rw [hS, mul_div_cancel_left₀ _ hV]

theorem pyInt_intCast (m : ℤ) : pyInt (m : ℚ) = m := by
  unfold pyInt
  rw [Rat.num_intCast, Rat.den_intCast]
  exact Int.tdiv_one m

theorem pyInt_mul_one (n : ℤ) : pyInt ((n : ℚ) * 1) = n := by
  rw [mul_one, pyInt_intCast]

theorem pyInt_mul_zero (n : ℤ) : pyInt ((n : ℚ) * 0) = 0 := by
  rw [mul_zero]
  simpa using pyInt_intCast 0

theorem generate_eq_ok (L : NpLib) (n : ℤ) (ratio : ℚ) (r : RNG)
    (h1 : 0 ≤ nCheat n ratio) (h2 : nCheat n ratio ≤ n) (h3 : 1 ≤ n)
    (hz : zNaN (generateCols L (n - nCheat n ratio).toNat
      (nCheat n ratio).toNat r) = false) :
    generate L n ratio r = .ok (dropGenOnly (tableOf (generateCols L
      (n - nCheat n ratio).toNat (nCheat n ratio).toNat r))) := by
  unfold generate
  rw [generateData_eq_ok L n ratio r h1 h2 h3 hz]
  rfl

theorem getCol_generate_cheater (L : NpLib) (n : ℤ) (ratio : ℚ) (r : RNG)
    (h1 : 0 ≤ nCheat n ratio) (h2 : nCheat n ratio ≤ n) (h3 : 1 ≤ n)
    (hz : zNaN (generateCols L (n - nCheat n ratio).toNat
      (nCheat n ratio).toNat r) = false) :
    getCol (generate L n ratio r) "cheater" =
      List.replicate (n - nCheat n ratio).toNat (0 : ℚ) ++
        List.replicate (nCheat n ratio).toNat 1 := by
  rw [generate_eq_ok L n ratio r h1 h2 h3 hz]
  rfl

-- ### Claim C1

/-- Claim C1: for every fixed `n_samples`, `cheater_ratio` and seed, two
independent runs of `generate_realistic_cheating_data` produce identical
output tables.  In the embedding the seeded stream `g` is the sole source
of randomness (the generator reads no other state), so two runs over
pointwise-equal streams, starting at cursor 0 as `np.random.seed(42)`
resets it, yield equal tables. -/
theorem c1_generator_deterministic (L : NpLib) (n : ℤ) (ratio : ℚ)
    (g1 g2 : ℕ → ℚ) (h : ∀ i, g1 i = g2 i) :
    generate L n ratio ⟨g1, 0⟩ = generate L n ratio ⟨g2, 0⟩ := by
  have hg : g1 = g2 := funext h
  rw [hg]

/-- Witness for C1 at `n_samples = 5`, `cheater_ratio = 0.15`. -/
theorem c1_generator_deterministic_witness :
    generate npLib0 5 (3/20) ⟨gHalf, 0⟩ = generate npLib0 5 (3/20) ⟨gHalf, 0⟩ :=
  c1_generator_deterministic npLib0 5 (3/20) gHalf gHalf (fun _ => rfl)

-- ### Claim C4

/-- Claim C4 (counterexample): the claim says an invalid-input error is
raised whenever `cheater_ratio` lies outside [0, 1]; but the source
contains no input validation.  At `n_samples = 10`,
`cheater_ratio = -0.05` (outside [0, 1]) the run succeeds:
`int(10 * -0.05) = 0` cheaters, and no error of any kind is raised. -/
theorem c4_counterexample :
    (generate npLib0 10 (-(1/20)) ⟨gIdx, 0⟩).isOk = true ∧
      ¬ ((0 : ℚ) ≤ -(1/20)) := by
  constructor
  · with_unfolding_all rfl
  · norm_num

/-- Claim C4 (amended): the generator performs no input validation.  It
fails — with errors surfaced from the numpy/sklearn library calls, not
invalid-input errors — exactly when a derived array size is negative,
the frame is empty, or the z-score columns come out NaN (single-row or
constant raw column): a run succeeds iff `0 ≤ int(n*ratio)`,
`int(n*ratio) ≤ n`, `1 ≤ n`, and the z-degeneracy check fails.  In
particular some ratios outside [0, 1] (those truncating into range,
e.g. -0.05) succeed with no error at all. -/
theorem c4_no_input_validation (L : NpLib) (n : ℤ) (ratio : ℚ) (r : RNG) :
    (generate L n ratio r).isOk = true ↔
      (0 ≤ nCheat n ratio ∧ nCheat n ratio ≤ n ∧ 1 ≤ n ∧
        zNaN (generateCols L (n - nCheat n ratio).toNat
          (nCheat n ratio).toNat r) = false) := by
  unfold generate generateData
  by_cases hA : n - nCheat n ratio < 0
  · rw [if_pos hA]
    exact iff_of_false (by simp [Except.map, Except.isOk, Except.toBool])
      (by rintro ⟨x1, x2, x3, x4⟩; omega)
  · rw [if_neg hA]
    by_cases hB : nCheat n ratio < 0
    · rw [if_pos hB]
      exact iff_of_false (by simp [Except.map, Except.isOk, Except.toBool])
        (by rintro ⟨x1, x2, x3, x4⟩; omega)
    · rw [if_neg hB]
      by_cases hC : n ≤ 0
      · rw [if_pos hC]
        exact iff_of_false (by simp [Except.map, Except.isOk, Except.toBool])
          (by rintro ⟨x1, x2, x3, x4⟩; omega)
      · rw [if_neg hC]
        by_cases hD : zNaN (generateCols L (n - nCheat n ratio).toNat
            (nCheat n ratio).toNat r) = true
        · rw [if_pos hD]
          exact iff_of_false (by simp [Except.map, Except.isOk, Except.toBool])
            (by rintro ⟨x1, x2, x3, x4⟩; rw [hD] at x4; simp at x4)
        · rw [if_neg hD]
          have hD' : zNaN (generateCols L (n - nCheat n ratio).toNat
              (nCheat n ratio).toNat r) = false := by
            cases hDD : zNaN (generateCols L (n - nCheat n ratio).toNat
                (nCheat n ratio).toNat r)
            · rfl
            · exact absurd hDD hD
          exact iff_of_true (by simp [Except.map, Except.isOk, Except.toBool])
            ⟨by omega, by omega, by omega, hD'⟩

-- ### Claim C2

/-- Claim C2 (counterexample): the claim says exactly
`round(n_samples * cheater_ratio)` rows have `cheater = 1`; but the code
truncates (`int`, line 43).  At `n_samples = 10`, `cheater_ratio = 0.15`
the table has 1 cheater row while `round(1.5) = 2`. -/
theorem c2_counterexample :
    (getCol (generate npLib0 10 (3/20) ⟨gHalf, 0⟩) "cheater").count 1 = 1 ∧
      pyRound ((10 : ℚ) * (3/20)) = 2 := by
  constructor
  · with_unfolding_all rfl
  · with_unfolding_all rfl

/-- Claim C2 (amended): for every valid input, exactly
`int(n_samples * cheater_ratio)` rows (truncation toward zero, not
`round`) have `cheater = 1`, and every remaining row has `cheater = 0`. -/
theorem c2_cheater_count (L : NpLib) (n : ℤ) (ratio : ℚ) (r : RNG)
    (h1 : 0 ≤ nCheat n ratio) (h2 : nCheat n ratio ≤ n) (h3 : 1 ≤ n)
    (hz : zNaN (generateCols L (n - nCheat n ratio).toNat
      (nCheat n ratio).toNat r) = false) :
    (getCol (generate L n ratio r) "cheater").count 1
        = (nCheat n ratio).toNat ∧
      ∀ x ∈ getCol (generate L n ratio r) "cheater", x = 0 ∨ x = 1 := by
  rw [getCol_generate_cheater L n ratio r h1 h2 h3 hz]
  constructor
  · rw [List.count_append, List.count_replicate, List.count_replicate]
    norm_num
  · intro x hx
    rcases List.mem_append.mp hx with h | h
    · exact Or.inl (List.eq_of_mem_replicate h)
    · exact Or.inr (List.eq_of_mem_replicate h)

/-- Witness for C2 (amended) at `n_samples = 10`, `cheater_ratio = 0.15`:
the cheater count is `int(1.5) = 1` and the first row's label is 0 or 1. -/
theorem c2_cheater_count_witness :
    (getCol (generate npLib0 10 (3/20) ⟨gHalf, 0⟩) "cheater").count 1
        = (nCheat 10 (3/20)).toNat ∧
      ((0 : ℚ) = 0 ∨ (0 : ℚ) = 1) :=
  ⟨(c2_cheater_count npLib0 10 (3/20) ⟨gHalf, 0⟩
      (of_decide_eq_true (by with_unfolding_all rfl))
      (of_decide_eq_true (by with_unfolding_all rfl))
      (of_decide_eq_true (by with_unfolding_all rfl))
      (by with_unfolding_all rfl)).1,
   (c2_cheater_count npLib0 10 (3/20) ⟨gHalf, 0⟩
      (of_decide_eq_true (by with_unfolding_all rfl))
      (of_decide_eq_true (by with_unfolding_all rfl))
      (of_decide_eq_true (by with_unfolding_all rfl))
      (by with_unfolding_all rfl)).2 0
      (of_decide_eq_true (by with_unfolding_all rfl))⟩

theorem getCol_drop_z_diff (c : Cols) :
    getCol (.ok (dropGenOnly (tableOf c))) "z_diff" = c.z_diff := rfl

theorem getCol_drop_coursework_z (c : Cols) :
    getCol (.ok (dropGenOnly (tableOf c))) "coursework_z" = c.coursework_z := rfl

theorem getCol_drop_exam_z (c : Cols) :
    getCol (.ok (dropGenOnly (tableOf c))) "exam_z" = c.exam_z := rfl

theorem getCol_data_ability (c : Cols) :
    getCol (.ok (tableOf c)) "ability" = c.ability := rfl

theorem getCol_data_coursework_raw (c : Cols) :
    getCol (.ok (tableOf c)) "coursework_raw" = c.coursework_raw := rfl

theorem getCol_data_exam_raw (c : Cols) :
    getCol (.ok (tableOf c)) "exam_raw" = c.exam_raw := rfl

theorem getCol_data_coursework_z (c : Cols) :
    getCol (.ok (tableOf c)) "coursework_z" = c.coursework_z := rfl

theorem getCol_data_exam_z (c : Cols) :
    getCol (.ok (tableOf c)) "exam_z" = c.exam_z := rfl

-- ### Claim C10

/-- Claim C10: in the returned table the rows are grouped by label in a
fixed positional order: after the index reset the first
`n_samples - n_cheaters` rows all have `cheater = 0` and the last
`n_cheaters` rows all have `cheater = 1`. -/
theorem c10_label_grouping (L : NpLib) (n : ℤ) (ratio : ℚ) (r : RNG)
    (h1 : 0 ≤ nCheat n ratio) (h2 : nCheat n ratio ≤ n) (h3 : 1 ≤ n)
    (hz : zNaN (generateCols L (n - nCheat n ratio).toNat
      (nCheat n ratio).toNat r) = false) :
    (getCol (generate L n ratio r) "cheater").take (n - nCheat n ratio).toNat
        = List.replicate (n - nCheat n ratio).toNat (0 : ℚ) ∧
      (getCol (generate L n ratio r) "cheater").drop (n - nCheat n ratio).toNat
        = List.replicate (nCheat n ratio).toNat 1 := by
  rw [getCol_generate_cheater L n ratio r h1 h2 h3 hz]
  constructor
  · have h := List.take_left (List.replicate (n - nCheat n ratio).toNat (0 : ℚ))
      (List.replicate (nCheat n ratio).toNat (1 : ℚ))
    rwa [List.length_replicate] at h
  · have h := List.drop_left (List.replicate (n - nCheat n ratio).toNat (0 : ℚ))
      (List.replicate (nCheat n ratio).toNat (1 : ℚ))
    rwa [List.length_replicate] at h

/-- Witness for C10 at `n_samples = 10`, `cheater_ratio = 0.15`. -/
theorem c10_label_grouping_witness :
    (getCol (generate npLib0 10 (3/20) ⟨gHalf, 0⟩) "cheater").take
        (10 - nCheat 10 (3/20)).toNat
        = List.replicate (10 - nCheat 10 (3/20)).toNat (0 : ℚ) ∧
      (getCol (generate npLib0 10 (3/20) ⟨gHalf, 0⟩) "cheater").drop
        (10 - nCheat 10 (3/20)).toNat
        = List.replicate (nCheat 10 (3/20)).toNat 1 :=
  c10_label_grouping npLib0 10 (3/20) ⟨gHalf, 0⟩
    (of_decide_eq_true (by with_unfolding_all rfl))
    (of_decide_eq_true (by with_unfolding_all rfl))
    (of_decide_eq_true (by with_unfolding_all rfl))
    (by with_unfolding_all rfl)

-- ### Claim C8

/-- Claim C8 (counterexample): with `n_samples = 1` and
`cheater_ratio = 0.0` the computed number of cheaters is 0, yet the
generator does not succeed: the single-row frame makes
`pandas.Series.std()` NaN (ddof = 1), the z columns are NaN, and the
outlier-detection step raises `ValueError` — the failure mode the
spec's own error-handling section flags for fewer than 2 records. -/
theorem c8_counterexample :
    nCheat 1 0 = 0 ∧ (generate npLib0 1 0 ⟨gHalf, 0⟩).isOk = false := by
  constructor
  · with_unfolding_all rfl
  · with_unfolding_all rfl

/-- Claim C8 (amended): when the computed number of cheaters is 0 (for
example `cheater_ratio = 0.0`) none of the cheater-only logic executes —
the cheating-pattern assignment draws an empty variant list, the
sudden-improvement selection is empty (`int(0 * 0.6) = 0` picks), and
the exam-time skew loop over the empty cheater-index list leaves any
state unchanged — and, provided the run passes the z-score step (a raw
column of a single row or with zero variance makes the z columns NaN
and the outlier-detection step raise, `zNaN`), the generator succeeds
and every row of the returned table has `cheater = 0`. -/
theorem c8_zero_cheaters (L : NpLib) (n : ℤ) (ratio : ℚ) (g : ℕ → ℚ)
    (hk : nCheat n ratio = 0) (h3 : 1 ≤ n)
    (hz : zNaN (generateCols L (n - nCheat n ratio).toNat
      (nCheat n ratio).toNat ⟨g, 0⟩) = false) :
    (generate L n ratio ⟨g, 0⟩).isOk = true ∧
      getCol (generate L n ratio ⟨g, 0⟩) "cheater" = List.replicate n.toNat 0 ∧
      (∀ r' : RNG, cheaterTypesList (nCheat n ratio).toNat r' = ([], r')) ∧
      (∀ (xs : List ℕ) (r' : RNG),
        selectK (pyInt (((nCheat n ratio).toNat : ℚ) * (3/5))).toNat xs r'
          = ([], r')) ∧
      (∀ s : List ℚ × RNG,
        (List.range' n.toNat (nCheat n ratio).toNat).foldl
          (fun s i => examTimeStep i s) s = s) := by
  have h1 : 0 ≤ nCheat n ratio := le_of_eq hk.symm
  have h2 : nCheat n ratio ≤ n := by omega
  refine ⟨?_, ?_, ?_, ?_, ?_⟩
  · rw [generate_eq_ok L n ratio ⟨g, 0⟩ h1 h2 h3 hz]
    rfl
  · rw [getCol_generate_cheater L n ratio ⟨g, 0⟩ h1 h2 h3 hz, hk]
    simp
  · intro r'
    rw [hk]
    rfl
  · intro xs r'
    rw [hk]
    with_unfolding_all rfl
  · intro s
    rw [hk]
    rfl

/-- Witness for C8 (amended) at `n_samples = 10`, `cheater_ratio = 0`
under the pairwise-distinct stream `gIdx` (non-constant raw columns). -/
theorem c8_zero_cheaters_witness :
    (generate npLib0 10 0 ⟨gIdx, 0⟩).isOk = true ∧
      getCol (generate npLib0 10 0 ⟨gIdx, 0⟩) "cheater"
        = List.replicate (10 : ℤ).toNat 0 ∧
      cheaterTypesList (nCheat 10 0).toNat ⟨gHalf, 7⟩ = ([], ⟨gHalf, 7⟩) ∧
      selectK (pyInt (((nCheat 10 0).toNat : ℚ) * (3/5))).toNat [3, 5] ⟨gHalf, 7⟩
        = ([], ⟨gHalf, 7⟩) ∧
      (List.range' (10 : ℤ).toNat (nCheat 10 0).toNat).foldl
        (fun s i => examTimeStep i s) ([1, 2], ⟨gHalf, 7⟩)
        = ([1, 2], ⟨gHalf, 7⟩) := by
  have h := c8_zero_cheaters npLib0 10 0 gIdx
    (of_decide_eq_true (by with_unfolding_all rfl)) (by decide)
    (by with_unfolding_all rfl)
  exact ⟨h.1, h.2.1, h.2.2.1 _, h.2.2.2.1 _ _, h.2.2.2.2 _⟩

-- ### Claim C9

/-- Claim C9: at the boundary `cheater_ratio = 1.0` every row is a
cheater (`int(n * 1.0) = n`), and the peer-comparison computation still
produces a value for every row: the ability-tertile groups are computed
from the `ability` column alone (independent of the label), and the
tertile group of each row contains at least that row itself, so the
group-mean divisor (the group size) is positive for every row — no
division by zero occurs. -/
theorem c9_all_cheaters (L : NpLib) (n : ℤ) (g : ℕ → ℚ) (h3 : 1 ≤ n)
    (hz : zNaN (generateCols L (n - nCheat n 1).toNat
      (nCheat n 1).toNat ⟨g, 0⟩) = false)
    (ab ex : List ℚ)
    (hab : getCol (generateData L n 1 ⟨g, 0⟩) "ability" = ab)
    (hex : getCol (generateData L n 1 ⟨g, 0⟩) "exam_raw" = ex) :
    getCol (generate L n 1 ⟨g, 0⟩) "cheater" = List.replicate n.toNat 1 ∧
      ∀ i, i < n.toNat →
        0 < (groupMembers
              (ab.map (fun a => digitize2 (percentile ab 33) (percentile ab 66) a))
              ex
              ((ab.map (fun a =>
                digitize2 (percentile ab 33) (percentile ab 66) a)).getD i 0)).length := by
  have hn : nCheat n 1 = n := pyInt_mul_one n
  have h1 : 0 ≤ nCheat n 1 := by omega
  have h2 : nCheat n 1 ≤ n := by omega
  have hablen : ab.length = n.toNat := by
    rw [← hab, generateData_eq_ok L n 1 ⟨g, 0⟩ h1 h2 h3 hz, getCol_data_ability,
      generateCols_ability_length]
    omega
  have hexlen : ex.length = n.toNat := by
    rw [← hex, generateData_eq_ok L n 1 ⟨g, 0⟩ h1 h2 h3 hz, getCol_data_exam_raw,
      generateCols_exam_raw_length]
    omega
  constructor
  · rw [getCol_generate_cheater L n 1 ⟨g, 0⟩ h1 h2 h3 hz, hn]
    simp
  · intro i hi
    set b1 := percentile ab 33 with hb1
    set b2 := percentile ab 66 with hb2
    set grps := ab.map (fun a => digitize2 b1 b2 a) with hgrps
    have hglen : grps.length = ab.length := by rw [hgrps, List.length_map]
    have hig : i < grps.length := by omega
    have hie : i < ex.length := by omega
    have hz : i < (grps.zip ex).length := by
      rw [List.length_zip]
      exact lt_min hig hie
    have hmem : (grps.getD i 0, ex.getD i 0) ∈ grps.zip ex := by
      have hgz : (grps.zip ex).get ⟨i, hz⟩ = (grps.getD i 0, ex.getD i 0) := by
        rw [List.getD_eq_getElem grps 0 hig, List.getD_eq_getElem ex 0 hie]
        simp [List.getElem_zip]
      rw [← hgz]
      exact List.get_mem _ _ _
    have hfil : (grps.getD i 0, ex.getD i 0)
        ∈ (grps.zip ex).filter (fun p => p.1 == grps.getD i 0) := by
      refine List.mem_filter.mpr ⟨hmem, ?_⟩
      simp
    unfold groupMembers
    rw [List.length_map]
    exact List.length_pos.mpr (List.ne_nil_of_mem hfil)

/-- Witness for C9 at `n_samples = 2`, `cheater_ratio = 1` under the
stream `gV`: both rows are cheaters (abilities `[0, 0]`, exam scores
`[3/2, 9/4]`), and row 0's tertile group is nonempty. -/
theorem c9_all_cheaters_witness :
    getCol (generate npLib0 2 1 ⟨gV, 0⟩) "cheater"
        = List.replicate (2 : ℤ).toNat 1 ∧
      0 < (groupMembers
            (([0, 0] : List ℚ).map (fun a =>
              digitize2 (percentile [0, 0] 33) (percentile [0, 0] 66) a))
            [3/2, 9/4]
            ((([0, 0] : List ℚ).map (fun a =>
              digitize2 (percentile [0, 0] 33) (percentile [0, 0] 66) a)).getD 0 0)).length := by
  have h := c9_all_cheaters npLib0 2 gV (by decide)
    (by with_unfolding_all rfl) [0, 0] [3/2, 9/4]
    (by with_unfolding_all rfl) (by with_unfolding_all rfl)
  exact ⟨h.1, h.2 0 (by decide)⟩

-- ### Claim C3

/-- Claim C3: for every valid input the returned table has exactly
`n_samples` rows and exactly the 10 columns `cheater`,
`subject_variation`, `historical_trend`, `exam_time_std`,
`peer_comparison`, `coursework_z`, `exam_z`, `z_diff`, `score_variance`,
`anomaly_score` (in this order); the generation-only columns `ability`,
`coursework_raw`, `exam_raw` are dropped.  The detector hypothesis
records the `fit_predict` contract of one prediction per input row. -/
theorem c3_output_shape (L : NpLib) (n : ℤ) (ratio : ℚ) (r : RNG)
    (hIso : ∀ rows, (L.isolationForest rows).length = rows.length)
    (h1 : 0 ≤ nCheat n ratio) (h2 : nCheat n ratio ≤ n) (h3 : 1 ≤ n)
    (hz : zNaN (generateCols L (n - nCheat n ratio).toNat
      (nCheat n ratio).toNat r) = false) :
    ((generate L n ratio r).toOption.getD []).map Prod.fst =
        ["cheater", "subject_variation", "historical_trend", "exam_time_std",
         "peer_comparison", "coursework_z", "exam_z", "z_diff",
         "score_variance", "anomaly_score"] ∧
      ∀ p ∈ (generate L n ratio r).toOption.getD [], p.2.length = n.toNat := by
  rw [generate_eq_ok L n ratio r h1 h2 h3 hz]
  simp only [Except.toOption, Option.getD, dropGenOnly_tableOf]
  constructor
  · rfl
  · intro p hp
    simp only [List.mem_cons, List.not_mem_nil, or_false] at hp
    rcases hp with rfl | rfl | rfl | rfl | rfl | rfl | rfl | rfl | rfl | rfl
    · dsimp only
      rw [generateCols_cheater_length]
      omega
    · dsimp only
      rw [generateCols_subject_variation_length]
      omega
    · dsimp only
      rw [generateCols_historical_trend_length]
      omega
    · dsimp only
      rw [generateCols_exam_time_std_length]
      omega
    · dsimp only
      rw [generateCols_peer_comparison_length]
      omega
    · dsimp only
      rw [generateCols_coursework_z_length]
      omega
    · dsimp only
      rw [generateCols_exam_z_length]
      omega
    · dsimp only
      rw [generateCols_z_diff_length]
      omega
    · dsimp only
      rw [generateCols_score_variance_length]
      omega
    · dsimp only
      rw [generateCols_anomaly_score_length L _ _ _ hIso]
      omega

/-- Witness for C3 at `n_samples = 3`, `cheater_ratio = 0` under the
stream `gZ` (non-constant raw columns): the ten column names in order. -/
theorem c3_output_shape_witness :
    ((generate npLib0 3 0 ⟨gZ, 0⟩).toOption.getD []).map Prod.fst =
        ["cheater", "subject_variation", "historical_trend", "exam_time_std",
         "peer_comparison", "coursework_z", "exam_z", "z_diff",
         "score_variance", "anomaly_score"] :=
  (c3_output_shape npLib0 3 0 ⟨gZ, 0⟩
    (fun rows => by simp [npLib0])
    (of_decide_eq_true (by with_unfolding_all rfl))
    (of_decide_eq_true (by with_unfolding_all rfl))
    (by decide)
    (by with_unfolding_all rfl)).1

-- ### Claim C7

/-- Claim C7: for every row of the returned table, `z_diff` equals
`coursework_z - exam_z` (exactly, in the rational model; line 155
computes the column as the difference of the two z-score columns). -/
theorem c7_z_diff_per_row (L : NpLib) (n : ℤ) (ratio : ℚ) (r : RNG)
    (h1 : 0 ≤ nCheat n ratio) (h2 : nCheat n ratio ≤ n) (h3 : 1 ≤ n)
    (hz : zNaN (generateCols L (n - nCheat n ratio).toNat
      (nCheat n ratio).toNat r) = false)
    (i : ℕ) (hi : i < (getCol (generate L n ratio r) "z_diff").length) :
    (getCol (generate L n ratio r) "z_diff").getD i 0 =
      (getCol (generate L n ratio r) "coursework_z").getD i 0 -
        (getCol (generate L n ratio r) "exam_z").getD i 0 := by
  rw [generate_eq_ok L n ratio r h1 h2 h3 hz] at hi ⊢
  rw [getCol_drop_z_diff, getCol_drop_coursework_z, getCol_drop_exam_z]
  rw [getCol_drop_z_diff] at hi
  rw [generateCols_z_diff] at hi ⊢
  have hcz : i < (generateCols L (n - nCheat n ratio).toNat
      (nCheat n ratio).toNat r).coursework_z.length := by
    rw [List.length_zipWith] at hi
    omega
  have hez : i < (generateCols L (n - nCheat n ratio).toNat
      (nCheat n ratio).toNat r).exam_z.length := by
    rw [List.length_zipWith] at hi
    omega
  rw [List.getD_eq_getElem _ 0 hi, List.getD_eq_getElem _ 0 hcz,
    List.getD_eq_getElem _ 0 hez, List.getElem_zipWith]

/-- Witness for C7 at `n_samples = 3`, `cheater_ratio = 0` under the
stream `gZ`, row 0. -/
theorem c7_z_diff_per_row_witness :
    (getCol (generate npLib0 3 0 ⟨gZ, 0⟩) "z_diff").getD 0 0 =
      (getCol (generate npLib0 3 0 ⟨gZ, 0⟩) "coursework_z").getD 0 0 -
        (getCol (generate npLib0 3 0 ⟨gZ, 0⟩) "exam_z").getD 0 0 :=
  c7_z_diff_per_row npLib0 3 0 ⟨gZ, 0⟩
    (of_decide_eq_true (by with_unfolding_all rfl))
    (of_decide_eq_true (by with_unfolding_all rfl))
    (by decide)
    (by with_unfolding_all rfl) 0
    (of_decide_eq_true (by with_unfolding_all rfl))

-- ### Claim C5

/-- Claim C5 (counterexample): `coursework_z` is *not* the population
z-score column of `coursework_raw`.  At `n_samples = 3`,
`cheater_ratio = 0` under the stream `gZ` the raw column is `[0, 2, 4]`
(sample variance 4, population variance 8/3); with the library square
root exact at 4 and returning the 64-bit float value of `sqrt(8/3)` at
8/3 (as numpy would), the code's column is `[-1, 0, 1]` while the
population z-scores of the same raw column differ. -/
theorem c5_counterexample :
    getCol (generateData npLibP 3 0 ⟨gZ, 0⟩) "coursework_z" = [-1, 0, 1] ∧
      getCol (generateData npLibP 3 0 ⟨gZ, 0⟩) "coursework_z"
        ≠ popZcol npLibP
            (getCol (generateData npLibP 3 0 ⟨gZ, 0⟩) "coursework_raw") := by
  constructor
  · with_unfolding_all rfl
  · exact of_decide_eq_true (by with_unfolding_all rfl)

/-- Claim C5 (amended): `coursework_z` and `exam_z` standardize by the
*sample* standard deviation (`pandas.Series.std`, divisor `n - 1`), not
the population standard deviation: each z column sums to 0, and — when
the library square root is exact at the sample variance of the raw
column and that variance is nonzero — its sum of squares is
`n_samples - 1` (so its population variance is `(n-1)/n`, not 1, which
is what dividing by the population standard deviation would give). -/
theorem c5_sample_std_zscores (L : NpLib) (n : ℤ) (ratio : ℚ) (r : RNG)
    (h1 : 0 ≤ nCheat n ratio) (h2 : nCheat n ratio ≤ n) (h3 : 1 ≤ n)
    (hsq1 : L.sqrt (sampleVar (getCol (generateData L n ratio r) "coursework_raw")) ^ 2
        = sampleVar (getCol (generateData L n ratio r) "coursework_raw"))
    (hv1 : sampleVar (getCol (generateData L n ratio r) "coursework_raw") ≠ 0)
    (hsq2 : L.sqrt (sampleVar (getCol (generateData L n ratio r) "exam_raw")) ^ 2
        = sampleVar (getCol (generateData L n ratio r) "exam_raw"))
    (hv2 : sampleVar (getCol (generateData L n ratio r) "exam_raw") ≠ 0) :
    (getCol (generateData L n ratio r) "coursework_z").sum = 0 ∧
      ((getCol (generateData L n ratio r) "coursework_z").map (fun z => z ^ 2)).sum
        = ((getCol (generateData L n ratio r) "coursework_raw").length : ℚ) - 1 ∧
      (getCol (generateData L n ratio r) "exam_z").sum = 0 ∧
      ((getCol (generateData L n ratio r) "exam_z").map (fun z => z ^ 2)).sum
        = ((getCol (generateData L n ratio r) "exam_raw").length : ℚ) - 1 := by
  have hz : zNaN (generateCols L (n - nCheat n ratio).toNat
      (nCheat n ratio).toNat r) = false := by
    cases hb : zNaN (generateCols L (n - nCheat n ratio).toNat
        (nCheat n ratio).toNat r) with
    | false => rfl
    | true =>
        exfalso
        apply hv1
        have herr : generateData L n ratio r
            = .error "ValueError: Input contains NaN" := by
          unfold generateData
          rw [if_neg (by omega), if_neg (by omega), if_neg (by omega),
            if_pos hb]
        rw [herr]
        with_unfolding_all rfl
  rw [generateData_eq_ok L n ratio r h1 h2 h3 hz] at hsq1 hv1 hsq2 hv2 ⊢
  rw [getCol_data_coursework_raw] at hsq1 hv1
  rw [getCol_data_exam_raw] at hsq2 hv2
  rw [getCol_data_coursework_z, getCol_data_exam_z, getCol_data_coursework_raw,
    getCol_data_exam_raw, generateCols_coursework_z, generateCols_exam_z]
  exact ⟨zcol_sum L _, zcol_sum_sq L _ hsq1 hv1, zcol_sum L _,
    zcol_sum_sq L _ hsq2 hv2⟩

/-- Witness for C5 (amended) at `n_samples = 3`, `cheater_ratio = 0`
under the stream `gZ`: both raw columns are `[0, 2, 4]` (sample variance
4, an exact square), both z columns sum to 0 and their squares sum to
`3 - 1 = 2`. -/
theorem c5_sample_std_zscores_witness :
    (getCol (generateData npLibS 3 0 ⟨gZ, 0⟩) "coursework_z").sum = 0 ∧
      ((getCol (generateData npLibS 3 0 ⟨gZ, 0⟩) "coursework_z").map
          (fun z => z ^ 2)).sum
        = ((getCol (generateData npLibS 3 0 ⟨gZ, 0⟩) "coursework_raw").length : ℚ) - 1 ∧
      (getCol (generateData npLibS 3 0 ⟨gZ, 0⟩) "exam_z").sum = 0 ∧
      ((getCol (generateData npLibS 3 0 ⟨gZ, 0⟩) "exam_z").map
          (fun z => z ^ 2)).sum
        = ((getCol (generateData npLibS 3 0 ⟨gZ, 0⟩) "exam_raw").length : ℚ) - 1 :=
  c5_sample_std_zscores npLibS 3 0 ⟨gZ, 0⟩
    (of_decide_eq_true (by with_unfolding_all rfl))
    (of_decide_eq_true (by with_unfolding_all rfl))
    (by decide)
    (by with_unfolding_all rfl)
    (of_decide_eq_true (by with_unfolding_all rfl))
    (by with_unfolding_all rfl)
    (of_decide_eq_true (by with_unfolding_all rfl))

-- ### Claim C6

/-- Claim C6 (counterexample): the claim's second replacement probability
is wrong.  With both draws equal to 1/2, the first test (`1/2 < 0.4`)
fails and the source's `elif random() < 0.7` test succeeds (`1/2 < 0.7`),
so the code replaces the value with `uniform(1.5, 3) = 9/4`; under the
claim's "probability 0.3 of the remaining cases" (`1/2 < 0.3` fails) the
value would be left unchanged. -/
theorem c6_counterexample :
    (examTimeStep 0 ([0], ⟨gHalf, 0⟩)).1
        ≠ (examTimeStepClaimed 0 ([0], ⟨gHalf, 0⟩)).1 ∧
      (examTimeStep 0 ([0], ⟨gHalf, 0⟩)).1 = [9/4] ∧
      (examTimeStepClaimed 0 ([0], ⟨gHalf, 0⟩)).1 = [0] := by
  refine ⟨of_decide_eq_true (by with_unfolding_all rfl), ?_, ?_⟩
  · with_unfolding_all rfl
  · with_unfolding_all rfl

/-- Claim C6 (amended): in the exam-time step, `exam_time_std` is drawn
from a standard normal for every record; then for each cheater, with
probability 0.4 (first draw < 0.4) it is replaced by the negative of a
uniform value in [1.5, 3], else it is replaced by a uniform value in
[1.5, 3] with probability **0.7** of the remaining cases (second draw
< 0.7, line 135) — not 0.3 — and otherwise left unchanged.  Stated for
the replaced-positive branch, the one the claim misstates: when the
first draw fails the 0.4 test and the second draw is below 0.7, the
cheater's entry is set to `1.5 + (3 - 1.5) * u` for a third draw `u`. -/
theorem c6_exam_time_threshold (i : ℕ) (col : List ℚ) (r : RNG)
    (hu1 : ¬ r.g r.k < 2/5) (hu2 : r.g (r.k + 1) < 7/10) :
    examTimeStep i (col, r) =
      (col.set i (3/2 + (3 - 3/2) * r.g (r.k + 2)), ⟨r.g, r.k + 3⟩) := by
  unfold examTimeStep draw uniformD
  simp only
  rw [if_neg hu1, if_pos hu2]
  show (col.set i (3/2 + (3 - 3/2) * r.g (r.k + 1 + 1)), (⟨r.g, r.k + 1 + 1 + 1⟩ : RNG))
      = (col.set i (3/2 + (3 - 3/2) * r.g (r.k + 2)), ⟨r.g, r.k + 3⟩)
  norm_num

/-- Witness for C6 (amended) under the constant-1/2 stream. -/
theorem c6_exam_time_threshold_witness :
    examTimeStep 0 ([0], ⟨gHalf, 0⟩) =
      ([(0 : ℚ)].set 0 (3/2 + (3 - 3/2) * gHalf 2), ⟨gHalf, 3⟩) :=
  c6_exam_time_threshold 0 [0] ⟨gHalf, 0⟩
    (of_decide_eq_true (by with_unfolding_all rfl))
    (of_decide_eq_true (by with_unfolding_all rfl))
